import Mathlib

/-!
Verification of the `autotune` adaptive GC tuner.

This file shallowly embeds the tuner's core (`autotune.go`) and the
container resource prober (`observability.go`, container part) in Lean 4
and proves properties of the embedding.

Modelling conventions:
* Go `float64` arithmetic is modelled over `ℚ`.  All comparisons relevant
  to the proved statements are far from the rounding error of double
  precision.  One deliberate divergence is recorded where it matters:
  in `ℚ`, division by zero yields `0`, while Go's float division by zero
  yields `±Inf`; the single place where the source divides by a value
  that can be zero (the latency factor's pull-down branch) is therefore
  additionally exposed through the branch predicate `latencyPullDownTaken`,
  which is independent of the semantics given to division by zero.
* Go `int` / `int64` / `time.Duration` are modelled as `ℤ` (durations in
  nanoseconds), `uint64` / `uint32` as `ℕ`.  Where Go wraps (`uint32`
  subtraction) or truncates (`int(float64)`, `uint64(float64)`, integer
  division) the model does so explicitly.
* The runtime's global GOGC knob (`debug.SetGCPercent`) is explicit
  state, threaded through the functions that the Go source lets touch it.
* Logging, the `Reason` string, the `stabilityCount` counter and the
  subscriber callbacks are not modelled: no verified statement concerns
  them, and they do not influence the data flow of the modelled fields.
-/

namespace Autotune

/-- Go `int(x)` conversion of a `float64`: truncation toward zero
(source: `targetGOGC := int(float64(currentGOGC) * smoothedFactor)`). -/
def goTrunc (q : ℚ) : ℤ := if q < 0 then -⌊-q⌋ else ⌊q⌋

/-- Go `uint64(x)` conversion of a nonnegative `float64`: truncation
toward zero (source: `uint64(float64(metrics.ContainerMemLimit) *
t.config.MemoryLimitPercent)`).  Negative inputs are unspecified in Go
and never arise here; the model maps them to 0. -/
def goUint (q : ℚ) : ℕ := (⌊q⌋).toNat

/-- The source's helper `abs` (autotune.go lines 623-628). -/
def goAbs (x : ℤ) : ℤ := if x < 0 then -x else x

/-- `Config` (autotune.go lines 18-37).  Durations are nanoseconds.
The `Logger` field is not modelled. -/
structure Config where
  MonitorInterval : ℤ
  MinGOGC : ℤ
  MaxGOGC : ℤ
  TargetLatency : ℤ
  MemoryLimitPercent : ℚ
  TuningAggressiveness : ℚ
  StabilizationWindow : ℤ
  MaxChangePerInterval : ℤ
  deriving DecidableEq

/-- `DefaultConfig` (autotune.go lines 40-52). -/
def DefaultConfig : Config where
  MonitorInterval := 30 * 1000000000
  MinGOGC := 50
  MaxGOGC := 800
  TargetLatency := 10 * 1000000
  MemoryLimitPercent := 4/5
  TuningAggressiveness := 3/10
  StabilizationWindow := 5 * 60 * 1000000000
  MaxChangePerInterval := 50

/-- `Metrics` (autotune.go lines 74-102).  `LastGC`, `CPUUsage` and
`Throughput` are never read by the tuner and are omitted. -/
structure Metrics where
  GCPauseTime : ℤ
  GCFrequency : ℚ
  HeapSize : ℕ
  HeapAlloc : ℕ
  HeapInuse : ℕ
  NextGC : ℕ
  NumGC : ℕ
  MemoryLimit : ℕ
  MemoryUsage : ℕ
  MemoryPressure : ℚ
  ContainerMemLimit : ℕ
  ContainerCPULimit : ℚ
  CurrentGOGC : ℤ
  Timestamp : ℤ
  deriving DecidableEq

/-- `TuningDecision` (autotune.go lines 105-112).  The `Reason` string and
the `Metrics` pointer are not modelled. -/
structure TuningDecision where
  OldGOGC : ℤ
  NewGOGC : ℤ
  Confidence : ℚ
  Timestamp : ℤ
  deriving DecidableEq

/-- `ContainerResources` (observability.go lines 514-519). -/
structure ContainerResources where
  MemoryLimit : ℕ
  CPULimit : ℚ
  IsContainer : Bool
  deriving DecidableEq

/-- The mutable tuner state relevant to the verified statements
(autotune.go lines 115-146): the two ring buffers and the decision
counter.  `maxHistory = 100` and `maxDecisions = 50` (lines 169-170) are
inlined as literals where used. -/
structure TunerState where
  metricsHistory : List Metrics
  decisionHistory : List TuningDecision
  totalDecisions : ℤ
  deriving DecidableEq

/-- Tuner state right after `NewTuner` (autotune.go lines 165-173):
empty histories, zero counters. -/
def initialTunerState : TunerState where
  metricsHistory := []
  decisionHistory := []
  totalDecisions := 0

/-- The slice of runtime state the tuner reads, plus the process-global
GOGC knob.  `pauses` is `debug.GCStats.Pause` (most recent first, ns). -/
structure GoRuntime where
  gogc : ℤ
  heapSys : ℕ
  heapAlloc : ℕ
  heapInuse : ℕ
  nextGC : ℕ
  numGC : ℕ
  pauses : List ℤ
  deriving DecidableEq

/-- `debug.SetGCPercent(newPercent)`: sets the runtime GOGC knob and
returns the value it replaced.  First component: returned previous value;
second: the knob's new state. -/
def setGCPercent (newPercent : ℤ) (gogc : ℤ) : ℤ × ℤ := (gogc, newPercent)

/-- `validateConfig` (autotune.go lines 604-621).  Returns `some msg` when
the Go function returns an error, `none` when it returns `nil`. -/
def validateConfig (cfg : Config) : Option String :=
  if cfg.MonitorInterval < 1000000000 then
    some "monitor interval must be at least 1 second"
  else if cfg.MinGOGC < 10 ∨ 1000 < cfg.MinGOGC then
    some "min GOGC must be between 10 and 1000"
  else if cfg.MaxGOGC < cfg.MinGOGC ∨ 2000 < cfg.MaxGOGC then
    some "max GOGC must be between min GOGC and 2000"
  else if cfg.TuningAggressiveness < 1/10 ∨ 2 < cfg.TuningAggressiveness then
    some "tuning aggressiveness must be between 0.1 and 2.0"
  else if cfg.MemoryLimitPercent < 1/10 ∨ 1 < cfg.MemoryLimitPercent then
    some "memory limit percent must be between 0.1 and 1.0"
  else
    none

/-- The acceptance predicate the spec's section 3 validation table
describes, written from the spec's words (for comparison with
`validateConfig`): every row of the table and nothing else. -/
def specTableAccepts (cfg : Config) : Prop :=
  1000000000 ≤ cfg.MonitorInterval ∧
  10 ≤ cfg.MinGOGC ∧ cfg.MinGOGC ≤ cfg.MaxGOGC ∧ cfg.MaxGOGC ≤ 2000 ∧
  0 < cfg.TargetLatency ∧
  1/10 ≤ cfg.MemoryLimitPercent ∧ cfg.MemoryLimitPercent ≤ 1 ∧
  1/10 ≤ cfg.TuningAggressiveness ∧ cfg.TuningAggressiveness ≤ 2 ∧
  0 < cfg.StabilizationWindow ∧ 0 < cfg.MaxChangePerInterval

/-- `collectMetrics` (autotune.go lines 302-359).  Takes the config, the
cached container resources, the current metrics history, the runtime
state and the current time; returns the sample and the runtime state
after the call.  Note the source reads the current ratio with
`debug.SetGCPercent(-1)` and never restores it. -/
def collectMetrics (cfg : Config) (cr : Option ContainerResources)
    (history : List Metrics) (rt : GoRuntime) (now : ℤ) : Metrics × GoRuntime :=
  let pr := setGCPercent (-1) rt.gogc
  let base : Metrics :=
    { GCPauseTime := 0, GCFrequency := 0,
      HeapSize := rt.heapSys, HeapAlloc := rt.heapAlloc,
      HeapInuse := rt.heapInuse, NextGC := rt.nextGC, NumGC := rt.numGC,
      MemoryLimit := 0, MemoryUsage := 0, MemoryPressure := 0,
      ContainerMemLimit := 0, ContainerCPULimit := 0,
      CurrentGOGC := pr.1, Timestamp := now }
  -- average of up to the 10 most recent pauses (integer Duration division)
  let m1 : Metrics :=
    if rt.pauses = [] then base
    else
      let count := min rt.pauses.length 10
      let totalPause := (rt.pauses.take count).sum
      { base with GCPauseTime := Int.tdiv totalPause count }
  -- GC frequency against the previous sample (uint32 wrap on the count)
  let m2 : Metrics :=
    match history.getLast? with
    | none => m1
    | some prev =>
      let timeDiff : ℚ := ((now - prev.Timestamp : ℤ) : ℚ) / 1000000000
      if 0 < timeDiff then
        let gcDiff : ℚ := (((m1.NumGC + 2 ^ 32 - prev.NumGC) % 2 ^ 32 : ℕ) : ℚ)
        { m1 with GCFrequency := gcDiff / timeDiff }
      else m1
  -- container resource information
  let m3 : Metrics :=
    match cr with
    | none => m2
    | some c =>
      let ma := { m2 with ContainerMemLimit := c.MemoryLimit,
                          ContainerCPULimit := c.CPULimit }
      if 0 < c.MemoryLimit then
        { ma with MemoryPressure := (ma.HeapInuse : ℚ) / (c.MemoryLimit : ℚ) }
      else ma
  -- memory usage and pressure against the effective limit
  let m4 : Metrics :=
    if 0 < m3.ContainerMemLimit then
      let musage := m3.HeapInuse
      let mlimit := goUint ((m3.ContainerMemLimit : ℚ) * cfg.MemoryLimitPercent)
      { m3 with MemoryUsage := musage, MemoryLimit := mlimit,
                MemoryPressure := (musage : ℚ) / (mlimit : ℚ) }
    else m3
  (m4, { rt with gogc := pr.2 })

/-- `GetMetrics` (autotune.go lines 215-220): returns `collectMetrics`
under the read lock; same runtime effect. -/
def GetMetrics (cfg : Config) (cr : Option ContainerResources)
    (history : List Metrics) (rt : GoRuntime) (now : ℤ) : Metrics × GoRuntime :=
  collectMetrics cfg cr history rt now

/-- The `"current_gogc"` entry of `GetStats` (autotune.go line 246):
`debug.SetGCPercent(-1)`.  First component: the reported value; second:
the runtime state after the call. -/
def getStatsCurrentGOGC (rt : GoRuntime) : ℤ × GoRuntime :=
  let pr := setGCPercent (-1) rt.gogc
  (pr.1, { rt with gogc := pr.2 })

/-- Latency factor of `calculateTargetGOGC` (autotune.go lines 430-440).
The else branch divides by `metrics.GCPauseTime`; the source has no
guard for a zero pause. -/
def latencyFactor (cfg : Config) (m : Metrics) : ℚ :=
  if cfg.TargetLatency < m.GCPauseTime then
    1 + ((m.GCPauseTime : ℚ) / (cfg.TargetLatency : ℚ) - 1) * cfg.TuningAggressiveness
  else
    1 - ((cfg.TargetLatency : ℚ) / (m.GCPauseTime : ℚ) - 1) * cfg.TuningAggressiveness * (1/2)

/-- Whether the latency factor takes its else ("pull-down") branch, i.e.
the branch whose ratio computation divides by `m.GCPauseTime`
(autotune.go lines 436-440).  This is exactly the negation of the
source's condition `metrics.GCPauseTime > t.config.TargetLatency`. -/
def latencyPullDownTaken (cfg : Config) (m : Metrics) : Prop :=
  ¬ cfg.TargetLatency < m.GCPauseTime

instance (cfg : Config) (m : Metrics) : Decidable (latencyPullDownTaken cfg m) := by
  unfold latencyPullDownTaken; infer_instance

/-- Memory-pressure factor (autotune.go lines 443-450). -/
def memoryFactor (cfg : Config) (m : Metrics) : ℚ :=
  if (4/5 : ℚ) < m.MemoryPressure then
    1 - (m.MemoryPressure - 4/5) * 2 * cfg.TuningAggressiveness
  else if m.MemoryPressure < 2/5 then
    1 + (2/5 - m.MemoryPressure) * (3/2) * cfg.TuningAggressiveness
  else 1

/-- GC-frequency factor (autotune.go lines 453-460). -/
def frequencyFactor (cfg : Config) (m : Metrics) : ℚ :=
  if (2 : ℚ) < m.GCFrequency then
    1 + (m.GCFrequency - 2) * (1/10) * cfg.TuningAggressiveness
  else if m.GCFrequency < 1/10 then
    1 - (1/10 - m.GCFrequency) * (1/2) * cfg.TuningAggressiveness
  else 1

/-- `calculateTargetGOGC` (autotune.go lines 427-472). -/
def calculateTargetGOGC (cfg : Config) (m : Metrics) : ℤ :=
  let combinedFactor := (latencyFactor cfg m + memoryFactor cfg m + frequencyFactor cfg m) / 3
  let alpha : ℚ := 3/10
  let smoothedFactor := alpha * combinedFactor + (1 - alpha) * 1
  goTrunc ((m.CurrentGOGC : ℚ) * smoothedFactor)

/-- `calculateVariation(recent, pause) > threshold` (autotune.go lines
630-659 and the call at 486-490).  The Go code compares
`sqrt(variance)/mean > threshold`; since the square root is not rational
the model uses the equivalent squared comparison: for `mean > 0` and
`threshold ≥ 0`, `sqrt(v)/mean > t ↔ t·t·mean·mean < v`, and for
`mean < 0` the Go value `sqrt(v)/mean ≤ 0` never exceeds the positive
threshold.  A list shorter than 2 or a zero mean yields `false`, as in
the source (which returns variation 0 in those cases). -/
def calculateVariationGT (values : List ℚ) (threshold : ℚ) : Bool :=
  if values.length < 2 then false
  else
    let mean := values.sum / (values.length : ℚ)
    if mean = 0 then false
    else
      let variance := (values.map (fun v => (v - mean) * (v - mean))).sum / (values.length : ℚ)
      decide (0 < mean ∧ threshold * threshold * (mean * mean) < variance)

/-- `calculateConfidence` (autotune.go lines 475-506).  `history` is
`t.metricsHistory` at the time of the call (it already contains the
current sample, appended by `performTuningCycle`). -/
def calculateConfidence (history : List Metrics) (cfg : Config) (m : Metrics) : ℚ :=
  let confidence : ℚ := 1
  let confidence :=
    if history.length < 5 then confidence * (7/10) else confidence
  let confidence :=
    if 3 ≤ history.length then
      let recent := history.drop (history.length - 3)
      if calculateVariationGT (recent.map (fun s => ((s.GCPauseTime : ℤ) : ℚ))) (3/10) then
        confidence * (4/5)
      else confidence
    else confidence
  let confidence :=
    if m.CurrentGOGC ≤ cfg.MinGOGC + 20 ∨ cfg.MaxGOGC - 20 ≤ m.CurrentGOGC then
      confidence * (9/10)
    else confidence
  let confidence :=
    if (19/20 : ℚ) < m.MemoryPressure ∨ m.MemoryPressure < 1/20 then
      confidence * (4/5)
    else confidence
  confidence

/-- `shouldSkipDueToOscillation` (autotune.go lines 567-600). -/
def shouldSkipDueToOscillation (dh : List TuningDecision) (cfg : Config) (now : ℤ) : Bool :=
  if dh.length < 4 then false
  else
    let recent := dh.drop (dh.length - 4)
    let increaseCount := (recent.filter (fun d => decide (d.OldGOGC < d.NewGOGC))).length
    let decreaseCount := (recent.filter (fun d => decide (¬ d.OldGOGC < d.NewGOGC))).length
    if 0 < increaseCount ∧ 0 < decreaseCount then
      match recent.head? with
      | some oldest => decide (now - oldest.Timestamp < cfg.StabilizationWindow)
      | none => false
    else false

/-- The per-interval rate limit of `makeTuningDecision` (autotune.go
lines 386-393): when the computed change exceeds
`MaxChangePerInterval`, move the target to
`current ± MaxChangePerInterval` in the direction of change. -/
def rateLimitedTarget (cfg : Config) (current target : ℤ) : ℤ :=
  let change := target - current
  if cfg.MaxChangePerInterval < goAbs change then
    if 0 < change then current + cfg.MaxChangePerInterval
    else current - cfg.MaxChangePerInterval
  else target

/-- The bound clamp of `makeTuningDecision` (autotune.go lines 395-401):
raise to `MinGOGC`, then lower to `MaxGOGC`. -/
def clampTarget (cfg : Config) (t : ℤ) : ℤ :=
  let t1 := if t < cfg.MinGOGC then cfg.MinGOGC else t
  if cfg.MaxGOGC < t1 then cfg.MaxGOGC else t1

/-- `makeTuningDecision` (autotune.go lines 362-424).  The stability
counter increment on the minimum-change path is not modelled. -/
def makeTuningDecision (st : TunerState) (cfg : Config) (m : Metrics) (now : ℤ) :
    Option TuningDecision :=
  let currentGOGC := m.CurrentGOGC
  if st.metricsHistory.length < 2 then none
  else if shouldSkipDueToOscillation st.decisionHistory cfg now then none
  else
    let targetGOGC := calculateTargetGOGC cfg m
    let change := targetGOGC - currentGOGC
    if goAbs change < 10 then none
    else
      let targetGOGC3 := clampTarget cfg (rateLimitedTarget cfg currentGOGC targetGOGC)
      let confidence := calculateConfidence st.metricsHistory cfg m
      if confidence < 3/5 then none
      else some { OldGOGC := currentGOGC, NewGOGC := targetGOGC3,
                  Confidence := confidence, Timestamp := now }

/-- The ring-buffer append used for both histories: `append`, then drop
the front element when the capacity is exceeded (autotune.go lines
282-285 and 548-551). -/
def appendTrim {α : Type} (l : List α) (x : α) (cap : ℕ) : List α :=
  let l1 := l ++ [x]
  if cap < l1.length then l1.drop 1 else l1

/-- `applyTuningDecision` (autotune.go lines 539-564): set the knob,
record the replaced value as `OldGOGC`, append to the decision ring,
bump the counter. -/
def applyTuningDecision (st : TunerState) (rt : GoRuntime) (d : TuningDecision) :
    TunerState × GoRuntime :=
  let pr := setGCPercent d.NewGOGC rt.gogc
  let d1 := { d with OldGOGC := pr.1 }
  ({ st with decisionHistory := appendTrim st.decisionHistory d1 50,
             totalDecisions := st.totalDecisions + 1 },
   { rt with gogc := pr.2 })

/-- Tail of `performTuningCycle` (autotune.go lines 293-298): apply the
decision when one was made. -/
def decideAndApply (cfg : Config) (st1 : TunerState) (rt : GoRuntime)
    (metrics : Metrics) (now : ℤ) : TunerState × GoRuntime :=
  match makeTuningDecision st1 cfg metrics now with
  | some d => applyTuningDecision st1 rt d
  | none => (st1, rt)

/-- `performTuningCycle` (autotune.go lines 270-299): collect a sample,
append it to the sample ring, decide, and apply the decision if any. -/
def performTuningCycle (cfg : Config) (cr : Option ContainerResources)
    (st : TunerState) (rt : GoRuntime) (now : ℤ) : TunerState × GoRuntime :=
  let mrt := collectMetrics cfg cr st.metricsHistory rt now
  let metrics := mrt.1
  let st1 := { st with metricsHistory := appendTrim st.metricsHistory metrics 100 }
  decideAndApply cfg st1 mrt.2 metrics now

/-- A run of the monitor loop: each input supplies the runtime
observation for that tick (heap fields, pause list, GC count) and the
tick time; the GOGC knob is carried over from tick to tick. -/
def runTicks (cfg : Config) (cr : Option ContainerResources)
    (inputs : List (GoRuntime × ℤ)) (start : TunerState × GoRuntime) :
    TunerState × GoRuntime :=
  inputs.foldl
    (fun acc inp => performTuningCycle cfg cr acc.1 { inp.1 with gogc := acc.2.gogc } inp.2)
    start

/-!
Container resource prober (observability.go lines 503-795).

Strings are handled as `List Char` (Go strings are byte strings; the
files involved are ASCII).  `strings.TrimSpace`, `strings.Fields`,
`strings.Split`, `strings.Contains`, `strings.HasPrefix` and the
`strconv` parsers are re-implemented structurally below; the Unicode
white-space classes beyond ASCII and the exponent / hex / infinity forms
of `strconv.ParseFloat` are not modelled (cgroup files hold plain
decimal numbers).  `filepath.Join` is modelled as `/`-concatenation
without `Clean` normalisation: file names are abstract keys of the
environment.
-/

/-- ASCII white space (models `unicode.IsSpace` for the ASCII range). -/
def isSpaceChar (c : Char) : Bool :=
  c = ' ' || c = '\t' || c = '\n' || c = '\r' || c = '\x0b' || c = '\x0c'

/-- ASCII decimal digit. -/
def isDigitChar (c : Char) : Bool :=
  decide ('0' ≤ c) && decide (c ≤ '9')

/-- Drop leading white space. -/
def trimLeftChars : List Char → List Char
  | [] => []
  | c :: cs => if isSpaceChar c then trimLeftChars cs else c :: cs

/-- `strings.TrimSpace`. -/
def goTrimSpace (l : List Char) : List Char :=
  trimLeftChars (trimLeftChars l.reverse).reverse

/-- Accumulator pass for `strings.Fields`. -/
def goFieldsAux : List Char → List Char → List (List Char)
  | [], acc => if acc = [] then [] else [acc.reverse]
  | c :: cs, acc =>
    if isSpaceChar c then
      if acc = [] then goFieldsAux cs [] else acc.reverse :: goFieldsAux cs []
    else goFieldsAux cs (c :: acc)

/-- `strings.Fields`: split around white space, dropping empty fields. -/
def goFields (l : List Char) : List (List Char) := goFieldsAux l []

/-- Accumulator pass for `strings.Split` with a one-character separator. -/
def goSplitAux (sep : Char) : List Char → List Char → List (List Char)
  | [], acc => [acc.reverse]
  | c :: cs, acc =>
    if c = sep then acc.reverse :: goSplitAux sep cs [] else goSplitAux sep cs (c :: acc)

/-- `strings.Split(s, sep)` for a one-character separator (empty fields
kept).  Also used for `bufio.Scanner` line iteration with `sep = '\n'`
(a trailing newline then yields one extra empty line, which every scan
loop below skips for want of enough fields). -/
def goSplitOnChar (sep : Char) (l : List Char) : List (List Char) :=
  goSplitAux sep l []

/-- `strings.HasPrefix`. -/
def startsWithChars : List Char → List Char → Bool
  | [], _ => true
  | _ :: _, [] => false
  | p :: ps, c :: cs => p = c && startsWithChars ps cs

/-- `strconv.ParseUint(s, 10, 64)`: decimal digits only, no sign, value
must fit in 64 bits; `some n` iff the Go call returns `(n, nil)`. -/
def parseUint64 (l : List Char) : Option ℕ :=
  if l = [] then none
  else if l.all isDigitChar then
    let n := l.foldl (fun acc c => acc * 10 + (c.toNat - 48)) 0
    if n < 2 ^ 64 then some n else none
  else none

/-- Digit run to a natural number, `none` when empty or non-digit. -/
def parseDigits (l : List Char) : Option ℕ :=
  if l = [] then none
  else if l.all isDigitChar then
    some (l.foldl (fun acc c => acc * 10 + (c.toNat - 48)) 0)
  else none

/-- Unsigned decimal of the form `digits`, `digits.digits`, `digits.`
or `.digits`, as an exact rational. -/
def parsePosFloat (l : List Char) : Option ℚ :=
  match goSplitOnChar '.' l with
  | [ip] => (parseDigits ip).map (fun n => (n : ℚ))
  | [ip, fp] =>
    if ip = [] ∧ fp = [] then none
    else if (ip = [] ∨ ip.all isDigitChar) ∧ (fp = [] ∨ fp.all isDigitChar) then
      let ipv := match parseDigits ip with | some n => (n : ℚ) | none => 0
      let fpv := match parseDigits fp with | some n => (n : ℚ) / (10 ^ fp.length : ℕ) | none => 0
      some (ipv + fpv)
    else none
  | _ => none

/-- `strconv.ParseFloat(s, 64)` restricted to plain signed decimals
(the only form cgroup files contain); the rounding to the nearest
`float64` is not modelled (values stay exact rationals). -/
def parseFloatChars (l : List Char) : Option ℚ :=
  match l with
  | '-' :: rest => (parsePosFloat rest).map (fun q => -q)
  | '+' :: rest => parsePosFloat rest
  | _ => parsePosFloat l

/-- The file system / process environment the prober consults.
`statOk p` models `os.Stat(p)` succeeding, `readFile` models
`os.ReadFile`, `getenv` models `os.Getenv` (empty list = unset). -/
structure FsEnv where
  statOk : List Char → Bool
  readFile : List Char → Option (List Char)
  pid : ℕ
  getenv : List Char → List Char

/-- `isRunningInContainer` (observability.go lines 544-571). -/
def isRunningInContainer (e : FsEnv) : Bool :=
  if e.statOk "/.dockerenv".data then true
  else if
    (match e.readFile "/proc/1/cgroup".data with
     | some content =>
       decide (List.IsInfix "docker".data content) ||
       decide (List.IsInfix "kubepods".data content) ||
       decide (List.IsInfix "containerd".data content)
     | none => false) then true
  else if e.pid = 1 then true
  else if e.getenv "KUBERNETES_SERVICE_HOST".data ≠ [] then true
  else false

/-- One iteration of the path loop in `readCgroupV2MemoryLimit`
(observability.go lines 601-615): `none` plays the loop's `continue`. -/
def tryV2MemPath (e : FsEnv) (path : List Char) : Option ℕ :=
  match e.readFile path with
  | none => none
  | some data =>
    let content := goTrimSpace data
    if content = "max".data then none
    else
      match parseUint64 content with
      | none => none
      | some limit => if limit < 2 ^ 63 ∧ 0 < limit then some limit else none

/-- `readCgroupV2MemoryLimit` (observability.go lines 594-618). -/
def readCgroupV2MemoryLimit (e : FsEnv) : Option ℕ :=
  match tryV2MemPath e "/sys/fs/cgroup/memory.max".data with
  | some limit => some limit
  | none => tryV2MemPath e "/sys/fs/cgroup/memory/memory.limit_in_bytes".data

/-- `filepath.Join` of two components (`Clean` not modelled). -/
def goJoin2 (a b : List Char) : List Char := a ++ '/' :: b

/-- `filepath.Join` of three components (`Clean` not modelled). -/
def goJoin3 (a b c : List Char) : List Char := a ++ '/' :: (b ++ '/' :: c)

/-- `/proc/mounts` scan of `findCgroupPath` (observability.go lines
759-768): first line with at least 3 fields whose third field is
`cgroup` gives the mount root. -/
def findCgroupRoot : List (List Char) → Option (List Char)
  | [] => none
  | line :: rest =>
    let fields := goFields line
    if 3 ≤ fields.length ∧ fields.get? 2 = some "cgroup".data then fields.get? 1
    else findCgroupRoot rest

/-- `/proc/self/cgroup` scan of `findCgroupPath` (observability.go lines
780-792): first line with at least 3 `:`-separated fields whose second
field's `,`-separated subsystem list contains `subsystem` gives the
joined path. -/
def findCgroupSubsysPath (root subsystem : List Char) :
    List (List Char) → Option (List Char)
  | [] => none
  | line :: rest =>
    let fields := goSplitOnChar ':' line
    if 3 ≤ fields.length then
      match fields.get? 1, fields.get? 2 with
      | some f1, some f2 =>
        if (goSplitOnChar ',' f1).contains subsystem then
          some (goJoin3 root subsystem f2)
        else findCgroupSubsysPath root subsystem rest
      | _, _ => findCgroupSubsysPath root subsystem rest
    else findCgroupSubsysPath root subsystem rest

/-- `findCgroupPath` (observability.go lines 752-795). -/
def findCgroupPath (e : FsEnv) (subsystem : List Char) : Option (List Char) :=
  match e.readFile "/proc/mounts".data with
  | none => none
  | some mountData =>
    match findCgroupRoot (goSplitOnChar '\n' mountData) with
    | none => none
    | some root =>
      match e.readFile "/proc/self/cgroup".data with
      | none => none
      | some cgroupData =>
        findCgroupSubsysPath root subsystem (goSplitOnChar '\n' cgroupData)

/-- `readCgroupV1MemoryLimit` (observability.go lines 621-647). -/
def readCgroupV1MemoryLimit (e : FsEnv) : Option ℕ :=
  match findCgroupPath e "memory".data with
  | none => none
  | some cgroupPath =>
    match e.readFile (goJoin2 cgroupPath "memory.limit_in_bytes".data) with
    | none => none
    | some data =>
      match parseUint64 (goTrimSpace data) with
      | none => none
      | some limit => if 2 ^ 63 ≤ limit ∨ limit = 0 then none else some limit

/-- `MemTotal` scan of `readProcMemInfo` (observability.go lines 656-667). -/
def memTotalScan : List (List Char) → Option ℕ
  | [] => none
  | line :: rest =>
    if startsWithChars "MemTotal:".data line then
      let fields := goFields line
      if 2 ≤ fields.length then
        match fields.get? 1 with
        | some f =>
          match parseUint64 f with
          | some kb => some (kb * 1024)
          | none => memTotalScan rest
        | none => memTotalScan rest
      else memTotalScan rest
    else memTotalScan rest

/-- `readProcMemInfo` (observability.go lines 650-670). -/
def readProcMemInfo (e : FsEnv) : Option ℕ :=
  match e.readFile "/proc/meminfo".data with
  | none => none
  | some data => memTotalScan (goSplitOnChar '\n' data)

/-- `detectMemoryLimit` (observability.go lines 574-591): the three
strategies in priority order. -/
def detectMemoryLimit (e : FsEnv) : Option ℕ :=
  match readCgroupV2MemoryLimit e with
  | some limit => some limit
  | none =>
    match readCgroupV1MemoryLimit e with
    | some limit => some limit
    | none => readProcMemInfo e

/-- `readCgroupV2CPULimit` (observability.go lines 688-707). -/
def readCgroupV2CPULimit (e : FsEnv) : Option ℚ :=
  match e.readFile "/sys/fs/cgroup/cpu.max".data with
  | none => none
  | some data =>
    let content := goTrimSpace data
    if content = "max".data then none
    else
      let fields := goFields content
      if 2 ≤ fields.length then
        match fields.get? 0, fields.get? 1 with
        | some f0, some f1 =>
          match parseFloatChars f0, parseFloatChars f1 with
          | some quota, some period =>
            if 0 < period then some (quota / period) else none
          | _, _ => none
        | _, _ => none
      else none

/-- `readCgroupV1CPULimit` (observability.go lines 710-749). -/
def readCgroupV1CPULimit (e : FsEnv) : Option ℚ :=
  match findCgroupPath e "cpu".data with
  | none => none
  | some cgroupPath =>
    match e.readFile (goJoin2 cgroupPath "cpu.cfs_quota_us".data) with
    | none => none
    | some quotaData =>
      match e.readFile (goJoin2 cgroupPath "cpu.cfs_period_us".data) with
      | none => none
      | some periodData =>
        match parseFloatChars (goTrimSpace quotaData),
              parseFloatChars (goTrimSpace periodData) with
        | some quota, some period =>
          if quota ≤ 0 ∨ period ≤ 0 then none else some (quota / period)
        | _, _ => none

/-- `detectCPULimit` (observability.go lines 673-685). -/
def detectCPULimit (e : FsEnv) : Option ℚ :=
  match readCgroupV2CPULimit e with
  | some limit => some limit
  | none => readCgroupV1CPULimit e

/-- `DetectContainerResources` (observability.go lines 522-541).  The
second component is the returned `error` (the Go function ends in an
unconditional `return resources, nil`). -/
def DetectContainerResources (e : FsEnv) : ContainerResources × Option String :=
  let base : ContainerResources := { MemoryLimit := 0, CPULimit := 0, IsContainer := false }
  if isRunningInContainer e then
    let r1 := { base with IsContainer := true }
    let r2 :=
      match detectMemoryLimit e with
      | some memLimit => { r1 with MemoryLimit := memLimit }
      | none => r1
    let r3 :=
      match detectCPULimit e with
      | some cpuLimit => { r2 with CPULimit := cpuLimit }
      | none => r2
    (r3, none)
  else (base, none)

/-! ## Helper lemmas -/

theorem goAbs_eq_abs (x : ℤ) : goAbs x = |x| := by
  unfold goAbs
  rcases lt_or_le x 0 with h | h
  · rw [if_pos h, abs_of_neg h]
  · rw [if_neg (not_lt.mpr h), abs_of_nonneg h]

/-- What holds of every decision `makeTuningDecision` emits: old ratio is
the sample's current ratio, the raw computed change passed the
minimum-change gate, the new ratio is the rate-limited and clamped
target, and the confidence passed its gate. -/
theorem emitted_decision_shape {st : TunerState} {cfg : Config} {m : Metrics}
    {now : ℤ} {d : TuningDecision}
    (h : makeTuningDecision st cfg m now = some d) :
    d.OldGOGC = m.CurrentGOGC ∧
    10 ≤ goAbs (calculateTargetGOGC cfg m - m.CurrentGOGC) ∧
    d.NewGOGC = clampTarget cfg (rateLimitedTarget cfg m.CurrentGOGC (calculateTargetGOGC cfg m)) ∧
    d.Confidence = calculateConfidence st.metricsHistory cfg m ∧
    3/5 ≤ d.Confidence ∧
    d.Timestamp = now := by
  simp only [makeTuningDecision] at h
  split_ifs at h with h1 h2 h3 h4
  rw [Option.some_inj] at h
  subst h
  exact ⟨rfl, le_of_not_lt h3, rfl, rfl, le_of_not_lt h4, rfl⟩

theorem clampTarget_mem {cfg : Config} (hb : cfg.MinGOGC ≤ cfg.MaxGOGC) (t : ℤ) :
    cfg.MinGOGC ≤ clampTarget cfg t ∧ clampTarget cfg t ≤ cfg.MaxGOGC := by
  simp only [clampTarget]
  split_ifs <;> omega

theorem rateLimitedTarget_close {cfg : Config} (hmc : 0 ≤ cfg.MaxChangePerInterval)
    (current target : ℤ) :
    goAbs (rateLimitedTarget cfg current target - current) ≤ cfg.MaxChangePerInterval := by
  simp only [rateLimitedTarget, goAbs]
  split_ifs <;> omega

theorem clampTarget_close {cfg : Config} {current t B : ℤ}
    (hlo : cfg.MinGOGC ≤ current) (hhi : current ≤ cfg.MaxGOGC)
    (h : goAbs (t - current) ≤ B) :
    goAbs (clampTarget cfg t - current) ≤ B := by
  simp only [clampTarget]
  simp only [goAbs] at h ⊢
  split_ifs at h ⊢ <;> omega

theorem appendTrim_length_le {α : Type} (l : List α) (x : α) (cap : ℕ)
    (h : l.length ≤ cap) : (appendTrim l x cap).length ≤ cap := by
  simp only [appendTrim]
  split_ifs with h1 <;>
    simp only [List.length_drop, List.length_append, List.length_singleton] at * <;> omega

theorem decideAndApply_caps (cfg : Config) (st1 : TunerState) (rt : GoRuntime)
    (metrics : Metrics) (now : ℤ)
    (h1 : st1.metricsHistory.length ≤ 100) (h2 : st1.decisionHistory.length ≤ 50) :
    (decideAndApply cfg st1 rt metrics now).1.metricsHistory.length ≤ 100 ∧
    (decideAndApply cfg st1 rt metrics now).1.decisionHistory.length ≤ 50 := by
  unfold decideAndApply
  cases makeTuningDecision st1 cfg metrics now with
  | none => exact ⟨h1, h2⟩
  | some d =>
    simp only [applyTuningDecision]
    exact ⟨h1, appendTrim_length_le _ _ _ h2⟩

/-- The two ring buffers stay within their capacities across one tick. -/
theorem performTuningCycle_caps (cfg : Config) (cr : Option ContainerResources)
    (st : TunerState) (rt : GoRuntime) (now : ℤ)
    (h1 : st.metricsHistory.length ≤ 100) (h2 : st.decisionHistory.length ≤ 50) :
    (performTuningCycle cfg cr st rt now).1.metricsHistory.length ≤ 100 ∧
    (performTuningCycle cfg cr st rt now).1.decisionHistory.length ≤ 50 := by
  simp only [performTuningCycle]
  exact decideAndApply_caps cfg _ _ _ now (appendTrim_length_le _ _ _ h1) h2

theorem runTicks_caps (cfg : Config) (cr : Option ContainerResources)
    (inputs : List (GoRuntime × ℤ)) :
    ∀ (st : TunerState) (rt : GoRuntime),
      st.metricsHistory.length ≤ 100 → st.decisionHistory.length ≤ 50 →
      (runTicks cfg cr inputs (st, rt)).1.metricsHistory.length ≤ 100 ∧
      (runTicks cfg cr inputs (st, rt)).1.decisionHistory.length ≤ 50 := by
  induction inputs with
  | nil => intro st rt h1 h2; exact ⟨h1, h2⟩
  | cons inp rest ih =>
    intro st rt h1 h2
    have hstep := performTuningCycle_caps cfg cr st { inp.1 with gogc := rt.gogc } inp.2 h1 h2
    have hrun : runTicks cfg cr (inp :: rest) (st, rt) =
        runTicks cfg cr rest (performTuningCycle cfg cr st { inp.1 with gogc := rt.gogc } inp.2) := by
      simp only [runTicks, List.foldl_cons]
    rw [hrun]
    have hpair : performTuningCycle cfg cr st { inp.1 with gogc := rt.gogc } inp.2 =
        ((performTuningCycle cfg cr st { inp.1 with gogc := rt.gogc } inp.2).1,
         (performTuningCycle cfg cr st { inp.1 with gogc := rt.gogc } inp.2).2) := rfl
    rw [hpair]
    exact ih _ _ hstep.1 hstep.2

/-! ## Concrete scenarios used by the claim theorems -/

/-- A runtime whose pacer ratio is 100 with nothing else of note. -/
def rtExample : GoRuntime where
  gogc := 100
  heapSys := 0
  heapAlloc := 0
  heapInuse := 0
  nextGC := 0
  numGC := 0
  pauses := []

/-- A sample with the pacer ratio 5 notches below `MaxGOGC = 800`, a
50 ms average pause (5 times the 10 ms target), neutral memory pressure
and GC frequency. -/
def mNearMax : Metrics where
  GCPauseTime := 50000000
  GCFrequency := 1
  HeapSize := 0
  HeapAlloc := 0
  HeapInuse := 0
  NextGC := 0
  NumGC := 0
  MemoryLimit := 0
  MemoryUsage := 0
  MemoryPressure := 1/2
  ContainerMemLimit := 0
  ContainerCPULimit := 0
  CurrentGOGC := 795
  Timestamp := 0

/-- Tuner state after five identical `mNearMax` samples, no decisions. -/
def stNearMax : TunerState where
  metricsHistory := [mNearMax, mNearMax, mNearMax, mNearMax, mNearMax]
  decisionHistory := []
  totalDecisions := 0

/-- Runtime whose pacer ratio matches `mNearMax.CurrentGOGC`. -/
def rtNearMax : GoRuntime where
  gogc := 795
  heapSys := 0
  heapAlloc := 0
  heapInuse := 0
  nextGC := 0
  numGC := 0
  pauses := []

/-- A sample with no completed collections: the pause average is 0
(collectMetrics leaves `GCPauseTime` at its zero value when
`gcStats.Pause` is empty). -/
def pauselessMetrics : Metrics where
  GCPauseTime := 0
  GCFrequency := 0
  HeapSize := 0
  HeapAlloc := 0
  HeapInuse := 0
  NextGC := 0
  NumGC := 0
  MemoryLimit := 0
  MemoryUsage := 0
  MemoryPressure := 1/2
  ContainerMemLimit := 0
  ContainerCPULimit := 0
  CurrentGOGC := 100
  Timestamp := 0

/-- The default configuration with aggressiveness raised to 0.5, as in
the spec's control-law unit scenarios. -/
def cfgAggressive : Config :=
  { DefaultConfig with TuningAggressiveness := 1/2 }

/-- The spec's first control-law unit scenario: P = 50 ms, T = 10 ms,
m = 0.5, f = 1, r = 100. -/
def mPauseDominates : Metrics where
  GCPauseTime := 50000000
  GCFrequency := 1
  HeapSize := 0
  HeapAlloc := 0
  HeapInuse := 0
  NextGC := 0
  NumGC := 0
  MemoryLimit := 0
  MemoryUsage := 0
  MemoryPressure := 1/2
  ContainerMemLimit := 0
  ContainerCPULimit := 0
  CurrentGOGC := 100
  Timestamp := 0

/-! ## Claim theorems -/

/-- Claim C1 (code bug): reading the current pacer ratio is NOT a pure
observation.  `collectMetrics` (hence `GetMetrics` and the per-tick
collection) and the `current_gogc` entry of `GetStats` read the ratio
with `debug.SetGCPercent(-1)` and never restore it, so a runtime whose
GOGC is 100 is left with GOGC = -1 (garbage collection disabled) after
the call — contradicting the source's own comment
`// Get current without changing`. -/
theorem reading_gogc_mutates_it :
    rtExample.gogc = 100 ∧
    (collectMetrics DefaultConfig none [] rtExample 0).2.gogc = -1 ∧
    (GetMetrics DefaultConfig none [] rtExample 0).2.gogc = -1 ∧
    (getStatsCurrentGOGC rtExample).2.gogc = -1 ∧
    (collectMetrics DefaultConfig none [] rtExample 0).1.CurrentGOGC = 100 ∧
    (-1 : ℤ) ≠ 100 :=
  ⟨rfl, rfl, rfl, rfl, rfl, by decide⟩

/-- Claim C5 (code bug): with a zero average pause the latency factor's
else branch is NOT skipped.  Under the default configuration
(`TargetLatency` = 10 ms > 0), a sample with `GCPauseTime = 0` fails the
condition `GCPauseTime > TargetLatency`, so the source takes the else
branch, whose `ratio` computation divides `TargetLatency` by the zero
pause (in Go float semantics `+Inf`, making the factor `-Inf`); the
factor is not 1 as the claim states.  (`latencyFactor` here evaluates
under the `ℚ` convention `x / 0 = 0`, which also yields a value ≠ 1;
the branch fact `latencyPullDownTaken` is convention-independent.) -/
theorem zero_pause_takes_division_branch :
    latencyPullDownTaken DefaultConfig pauselessMetrics ∧
    pauselessMetrics.GCPauseTime = 0 ∧
    latencyFactor DefaultConfig pauselessMetrics ≠ 1 := by
  refine ⟨by decide, rfl, ?_⟩
  simp only [latencyFactor, DefaultConfig, pauselessMetrics]
  norm_num

/-- The decision the tuner emits in the `mNearMax` scenario. -/
def dNearMax : TuningDecision where
  OldGOGC := 795
  NewGOGC := 800
  Confidence := 9/10
  Timestamp := 0

theorem emitNearMax :
    makeTuningDecision stNearMax DefaultConfig mNearMax 0 = some dNearMax := by
  simp only [makeTuningDecision, shouldSkipDueToOscillation, calculateTargetGOGC,
    latencyFactor, memoryFactor, frequencyFactor, goTrunc, goAbs,
    rateLimitedTarget, clampTarget,
    calculateConfidence, calculateVariationGT, stNearMax, mNearMax, dNearMax, DefaultConfig,
    List.length_cons, List.length_nil, List.drop, List.map_cons, List.map_nil,
    List.sum_cons, List.sum_nil]
  norm_num

/-- Claim C2 (counterexample): starting 5 below `MaxGOGC` with a high
pause, the tuner emits and records a decision whose final change
magnitude is 5 < 10: the minimum-change gate applies to the raw
computed change (here 890 − 795 = 95), not to the rate-limited and
clamped `NewGOGC`. -/
theorem min_change_gate_clamp_counterexample :
    makeTuningDecision stNearMax DefaultConfig mNearMax 0 = some dNearMax ∧
    (applyTuningDecision stNearMax rtNearMax dNearMax).1.decisionHistory = [dNearMax] ∧
    |dNearMax.NewGOGC - dNearMax.OldGOGC| < 10 :=
  ⟨emitNearMax, rfl, by decide⟩

/-- Claim C2 (amended): the ≥ 10 minimum-change bound holds for the raw
computed change — for every emitted decision,
`|calculateTargetGOGC − CurrentGOGC| ≥ 10` and the decision's old ratio
is the sample's current ratio; the recorded `|NewGOGC − OldGOGC|` can be
smaller once the rate limit and the bound clamp are applied. -/
theorem min_change_gate_pre_clamp (st : TunerState) (cfg : Config) (m : Metrics)
    (now : ℤ) (d : TuningDecision)
    (h : makeTuningDecision st cfg m now = some d) :
    10 ≤ |calculateTargetGOGC cfg m - m.CurrentGOGC| ∧ d.OldGOGC = m.CurrentGOGC := by
  obtain ⟨h1, h2, _, _, _, _⟩ := emitted_decision_shape h
  exact ⟨goAbs_eq_abs (calculateTargetGOGC cfg m - m.CurrentGOGC) ▸ h2, h1⟩

theorem min_change_gate_pre_clamp_witness :
    10 ≤ |calculateTargetGOGC DefaultConfig mNearMax - mNearMax.CurrentGOGC| ∧
    dNearMax.OldGOGC = mNearMax.CurrentGOGC :=
  min_change_gate_pre_clamp stNearMax DefaultConfig mNearMax 0 dNearMax emitNearMax

/-- Configuration accepted by `validateConfig` whose per-interval cap is
10 (the cap is positive, as the spec's table requires). -/
def cfgTight : Config :=
  { DefaultConfig with MaxChangePerInterval := 10 }

/-- A sample whose current ratio 5 lies below `MinGOGC = 50`, with a
1 s average pause. -/
def mBelowMin : Metrics where
  GCPauseTime := 1000000000
  GCFrequency := 1
  HeapSize := 0
  HeapAlloc := 0
  HeapInuse := 0
  NextGC := 0
  NumGC := 0
  MemoryLimit := 0
  MemoryUsage := 0
  MemoryPressure := 1/2
  ContainerMemLimit := 0
  ContainerCPULimit := 0
  CurrentGOGC := 5
  Timestamp := 0

/-- Tuner state after five identical `mBelowMin` samples. -/
def stBelowMin : TunerState where
  metricsHistory := [mBelowMin, mBelowMin, mBelowMin, mBelowMin, mBelowMin]
  decisionHistory := []
  totalDecisions := 0

/-- The decision the tuner emits in the `mBelowMin` scenario. -/
def dBelowMin : TuningDecision where
  OldGOGC := 5
  NewGOGC := 50
  Confidence := 9/10
  Timestamp := 0

theorem emitBelowMin :
    makeTuningDecision stBelowMin cfgTight mBelowMin 0 = some dBelowMin := by
  simp only [makeTuningDecision, shouldSkipDueToOscillation, calculateTargetGOGC,
    latencyFactor, memoryFactor, frequencyFactor, goTrunc, goAbs,
    rateLimitedTarget, clampTarget,
    calculateConfidence, calculateVariationGT, stBelowMin, mBelowMin, dBelowMin,
    cfgTight, DefaultConfig,
    List.length_cons, List.length_nil, List.drop, List.map_cons, List.map_nil,
    List.sum_cons, List.sum_nil]
  norm_num

/-- Claim C3 (counterexample): with the accepted configuration
`cfgTight` (cap 10) and a current ratio 5 below `MinGOGC`, the tuner
emits a decision 5 → 50 whose change magnitude 45 exceeds
`MaxChangePerInterval = 10`: the bound clamp runs after the rate limit
and can move an out-of-bounds ratio by more than the cap. -/
theorem rate_limit_counterexample :
    validateConfig cfgTight = none ∧
    0 < cfgTight.MaxChangePerInterval ∧
    makeTuningDecision stBelowMin cfgTight mBelowMin 0 = some dBelowMin ∧
    cfgTight.MaxChangePerInterval < |dBelowMin.NewGOGC - dBelowMin.OldGOGC| := by
  refine ⟨?_, by decide, emitBelowMin, by decide⟩
  simp only [validateConfig, cfgTight, DefaultConfig]
  norm_num

/-- Claim C3 (amended): the per-tick change bound
`|NewGOGC − OldGOGC| ≤ MaxChangePerInterval` holds for every emitted
decision whose starting ratio already lies within
`[MinGOGC, MaxGOGC]` (and a nonnegative cap); for a starting ratio
outside the bounds the clamp can move the ratio by more than the cap. -/
theorem rate_limit_from_within_bounds (st : TunerState) (cfg : Config) (m : Metrics)
    (now : ℤ) (d : TuningDecision)
    (hmc : 0 ≤ cfg.MaxChangePerInterval)
    (hlo : cfg.MinGOGC ≤ m.CurrentGOGC) (hhi : m.CurrentGOGC ≤ cfg.MaxGOGC)
    (h : makeTuningDecision st cfg m now = some d) :
    |d.NewGOGC - d.OldGOGC| ≤ cfg.MaxChangePerInterval := by
  obtain ⟨hOld, _, hNew, _, _, _⟩ := emitted_decision_shape h
  rw [hOld, hNew, ← goAbs_eq_abs]
  exact clampTarget_close hlo hhi (rateLimitedTarget_close hmc _ _)

theorem rate_limit_from_within_bounds_witness :
    |dNearMax.NewGOGC - dNearMax.OldGOGC| ≤ DefaultConfig.MaxChangePerInterval :=
  rate_limit_from_within_bounds stNearMax DefaultConfig mNearMax 0 dNearMax
    (by decide) (by decide) (by decide) emitNearMax

/-- Claim C4: every emitted decision's new ratio lies within
`[MinGOGC, MaxGOGC]` (for any configuration with `MinGOGC ≤ MaxGOGC`,
as validation guarantees), for every sample, history and starting ratio;
and applying the decision sets the runtime's knob to exactly that
ratio. -/
theorem applied_ratio_within_bounds (st : TunerState) (cfg : Config) (m : Metrics)
    (now : ℤ) (d : TuningDecision) (rt : GoRuntime)
    (hb : cfg.MinGOGC ≤ cfg.MaxGOGC)
    (h : makeTuningDecision st cfg m now = some d) :
    cfg.MinGOGC ≤ d.NewGOGC ∧ d.NewGOGC ≤ cfg.MaxGOGC ∧
    (applyTuningDecision st rt d).2.gogc = d.NewGOGC := by
  obtain ⟨_, _, hNew, _, _, _⟩ := emitted_decision_shape h
  obtain ⟨a, b⟩ :=
    clampTarget_mem hb (rateLimitedTarget cfg m.CurrentGOGC (calculateTargetGOGC cfg m))
  exact ⟨hNew ▸ a, hNew ▸ b, rfl⟩

theorem applied_ratio_within_bounds_witness :
    DefaultConfig.MinGOGC ≤ dNearMax.NewGOGC ∧ dNearMax.NewGOGC ≤ DefaultConfig.MaxGOGC ∧
    (applyTuningDecision stNearMax rtNearMax dNearMax).2.gogc = dNearMax.NewGOGC :=
  applied_ratio_within_bounds stNearMax DefaultConfig mNearMax 0 dNearMax rtNearMax
    (by decide) emitNearMax

/-- Claim C6: in the spec's first control-law unit scenario
(aggressiveness 0.5, P = 50 ms, T = 10 ms, m = 0.5, f = 1, r = 100) the
control law returns target 120 > 100: latency factor 3, memory and
frequency factors 1, combined 5/3, smoothed 1.2, floor(100 · 1.2) = 120. -/
theorem control_law_pause_dominates :
    calculateTargetGOGC cfgAggressive mPauseDominates = 120 ∧ (100 : ℤ) < 120 := by
  refine ⟨?_, by decide⟩
  simp only [calculateTargetGOGC, latencyFactor, memoryFactor, frequencyFactor,
    goTrunc, cfgAggressive, DefaultConfig, mPauseDominates]
  norm_num

/-- Default configuration with `TargetLatency` zeroed out (the spec's
table demands `TargetLatency > 0`). -/
def cfgNoLatency : Config :=
  { DefaultConfig with TargetLatency := 0 }

/-- Configuration with `MinGOGC = 1500`, satisfying the spec's
`10 ≤ Min ≤ Max ≤ 2000` but exceeding the source's `MinGOGC ≤ 1000`. -/
def cfgHighMin : Config :=
  { DefaultConfig with MinGOGC := 1500, MaxGOGC := 2000 }

/-- Claim C7 (counterexample): `validateConfig` does not implement the
spec's validation table.  It accepts `TargetLatency = 0` (the table
demands > 0; the same holds for `StabilizationWindow` and
`MaxChangePerInterval`, which the source never checks), and it rejects
`MinGOGC = 1500` even though the table allows any
`10 ≤ Min ≤ Max ≤ 2000`. -/
theorem validateConfig_spec_table_counterexample :
    validateConfig cfgNoLatency = none ∧ cfgNoLatency.TargetLatency = 0 ∧
    ¬ specTableAccepts cfgNoLatency ∧
    validateConfig cfgHighMin ≠ none ∧ specTableAccepts cfgHighMin := by
  refine ⟨?_, rfl, ?_, ?_, ?_⟩
  · simp only [validateConfig, cfgNoLatency, DefaultConfig]
    norm_num
  · intro hacc
    have h5 := hacc.2.2.2.2.1
    norm_num [cfgNoLatency, DefaultConfig] at h5
  · simp only [validateConfig, cfgHighMin, DefaultConfig]
    norm_num
    simp
  · simp only [specTableAccepts, cfgHighMin, DefaultConfig]
    norm_num

/-- Claim C7 (amended): the constructor's validation accepts exactly the
configurations with `MonitorInterval ≥ 1 s`, `10 ≤ MinGOGC ≤ 1000`,
`MinGOGC ≤ MaxGOGC ≤ 2000`, `0.1 ≤ TuningAggressiveness ≤ 2.0` and
`0.1 ≤ MemoryLimitPercent ≤ 1.0`; it imposes no constraint at all on
`TargetLatency`, `StabilizationWindow` or `MaxChangePerInterval`, and it
bounds `MinGOGC` above by 1000. -/
theorem validateConfig_characterization (cfg : Config) :
    validateConfig cfg = none ↔
      (1000000000 ≤ cfg.MonitorInterval ∧
       10 ≤ cfg.MinGOGC ∧ cfg.MinGOGC ≤ 1000 ∧
       cfg.MinGOGC ≤ cfg.MaxGOGC ∧ cfg.MaxGOGC ≤ 2000 ∧
       1/10 ≤ cfg.TuningAggressiveness ∧ cfg.TuningAggressiveness ≤ 2 ∧
       1/10 ≤ cfg.MemoryLimitPercent ∧ cfg.MemoryLimitPercent ≤ 1) := by
  simp only [validateConfig]
  split_ifs with h1 h2 h3 h4 h5
  · refine iff_of_false (by simp) ?_
    rintro ⟨a, -⟩
    omega
  · refine iff_of_false (by simp) ?_
    rintro ⟨-, b, c, -⟩
    rcases h2 with h | h <;> omega
  · refine iff_of_false (by simp) ?_
    rintro ⟨-, -, -, d1, d2, -⟩
    rcases h3 with h | h <;> omega
  · refine iff_of_false (by simp) ?_
    rintro ⟨-, -, -, -, -, f1, f2, -⟩
    rcases h4 with h | h <;> linarith
  · refine iff_of_false (by simp) ?_
    rintro ⟨-, -, -, -, -, -, -, g1, g2⟩
    rcases h5 with h | h <;> linarith
  · push_neg at h1 h2 h3 h4 h5
    exact iff_of_true rfl
      ⟨by omega, by omega, by omega, by omega, by omega,
       h4.1, h4.2, h5.1, h5.2⟩

theorem appendTrim_full {α : Type} (l : List α) (x : α) (cap : ℕ)
    (h0 : l.length = cap) (hpos : 0 < cap) :
    appendTrim l x cap = l.drop 1 ++ [x] := by
  subst h0
  cases l with
  | nil => simp at hpos
  | cons a t =>
    simp only [appendTrim]
    rw [if_pos (by
      simp only [List.length_append, List.length_cons, List.length_singleton]
      omega)]
    simp

theorem appendTrim_slack {α : Type} (l : List α) (x : α) (cap : ℕ)
    (h : l.length < cap) : appendTrim l x cap = l ++ [x] := by
  simp only [appendTrim]
  rw [if_neg (by simp [List.length_append]; omega)]

/-- Claim C8: starting from a fresh tuner, after any sequence of ticks
the sample history holds at most 100 entries and the decision history at
most 50; an append at the cap drops exactly the oldest entry and keeps
the remaining entries in order, and an append below the cap keeps every
entry. -/
theorem ring_buffers_bounded (cfg : Config) (cr : Option ContainerResources)
    (inputs : List (GoRuntime × ℤ)) (rt0 : GoRuntime) :
    (runTicks cfg cr inputs (initialTunerState, rt0)).1.metricsHistory.length ≤ 100 ∧
    (runTicks cfg cr inputs (initialTunerState, rt0)).1.decisionHistory.length ≤ 50 ∧
    (∀ (l : List Metrics) (x : Metrics), l.length = 100 →
      appendTrim l x 100 = l.drop 1 ++ [x]) ∧
    (∀ (l : List Metrics) (x : Metrics), l.length < 100 → appendTrim l x 100 = l ++ [x]) ∧
    (∀ (l : List TuningDecision) (x : TuningDecision), l.length = 50 →
      appendTrim l x 50 = l.drop 1 ++ [x]) ∧
    (∀ (l : List TuningDecision) (x : TuningDecision), l.length < 50 →
      appendTrim l x 50 = l ++ [x]) := by
  obtain ⟨a, b⟩ := runTicks_caps cfg cr inputs initialTunerState rt0
    (by simp [initialTunerState]) (by simp [initialTunerState])
  exact ⟨a, b,
    fun l x hl => appendTrim_full l x 100 hl (by omega),
    fun l x hl => appendTrim_slack l x 100 hl,
    fun l x hl => appendTrim_full l x 50 hl (by omega),
    fun l x hl => appendTrim_slack l x 50 hl⟩

/-- A sample with memory pressure exactly 0.05 — the boundary of the
open interval (0.05, 0.95) — mid-range ratio 400 and a 50 ms pause. -/
def mLowPressure : Metrics where
  GCPauseTime := 50000000
  GCFrequency := 1
  HeapSize := 0
  HeapAlloc := 0
  HeapInuse := 0
  NextGC := 0
  NumGC := 0
  MemoryLimit := 0
  MemoryUsage := 0
  MemoryPressure := 1/20
  ContainerMemLimit := 0
  ContainerCPULimit := 0
  CurrentGOGC := 400
  Timestamp := 0

/-- Tuner state with only two samples (history < 5). -/
def stTwo : TunerState where
  metricsHistory := [mLowPressure, mLowPressure]
  decisionHistory := []
  totalDecisions := 0

/-- The decision emitted in the `mLowPressure` scenario. -/
def dLowPressure : TuningDecision where
  OldGOGC := 400
  NewGOGC := 450
  Confidence := 7/10
  Timestamp := 0

theorem emitLowPressure :
    makeTuningDecision stTwo DefaultConfig mLowPressure 0 = some dLowPressure := by
  simp only [makeTuningDecision, shouldSkipDueToOscillation, calculateTargetGOGC,
    latencyFactor, memoryFactor, frequencyFactor, goTrunc, goAbs,
    rateLimitedTarget, clampTarget,
    calculateConfidence, calculateVariationGT, stTwo, mLowPressure, dLowPressure,
    DefaultConfig,
    List.length_cons, List.length_nil, List.drop, List.map_cons, List.map_nil,
    List.sum_cons, List.sum_nil]
  norm_num

/-- Claim C10 (counterexample): at memory pressure exactly 0.05 — which
lies outside the open interval (0.05, 0.95) — with a two-sample history,
the extreme-pressure confidence penalty does NOT fire (the source tests
`> 0.95 || < 0.05` strictly), confidence is 0.7 ≥ 0.6, and a decision IS
emitted. -/
theorem confidence_boundary_counterexample :
    mLowPressure.MemoryPressure = 1/20 ∧
    stTwo.metricsHistory.length < 5 ∧
    makeTuningDecision stTwo DefaultConfig mLowPressure 0 = some dLowPressure ∧
    dLowPressure.Confidence = 7/10 :=
  ⟨rfl, by decide, emitLowPressure, rfl⟩

/-- Claim C10 (amended): for memory pressure strictly outside the closed
interval [0.05, 0.95] (in particular pressure 0, the value whenever no
container memory limit is known) and a history of fewer than 5 samples,
the confidence is at most 0.7 × 0.8 = 0.56 < 0.6 and no decision is
emitted, regardless of pause, frequency, or current ratio. -/
theorem extreme_pressure_suppresses (st : TunerState) (cfg : Config) (m : Metrics)
    (now : ℤ)
    (hlen : st.metricsHistory.length < 5)
    (hp : (19/20 : ℚ) < m.MemoryPressure ∨ m.MemoryPressure < 1/20) :
    calculateConfidence st.metricsHistory cfg m ≤ 14/25 ∧
    makeTuningDecision st cfg m now = none := by
  have hconf : calculateConfidence st.metricsHistory cfg m ≤ 14/25 := by
    simp only [calculateConfidence]
    rw [if_pos hp]
    split_ifs <;> norm_num
  refine ⟨hconf, ?_⟩
  simp only [makeTuningDecision]
  split_ifs with h1 h2 h3 h4
  · rfl
  · rfl
  · rfl
  · rfl
  · exact absurd (lt_of_le_of_lt hconf (by norm_num)) h4

/-- A sample with zero memory pressure (no container limit known). -/
def mZeroPressure : Metrics where
  GCPauseTime := 50000000
  GCFrequency := 1
  HeapSize := 0
  HeapAlloc := 0
  HeapInuse := 0
  NextGC := 0
  NumGC := 0
  MemoryLimit := 0
  MemoryUsage := 0
  MemoryPressure := 0
  ContainerMemLimit := 0
  ContainerCPULimit := 0
  CurrentGOGC := 400
  Timestamp := 0

/-- Two-sample state for the zero-pressure scenario. -/
def stTwoZero : TunerState where
  metricsHistory := [mZeroPressure, mZeroPressure]
  decisionHistory := []
  totalDecisions := 0

theorem extreme_pressure_suppresses_witness :
    calculateConfidence stTwoZero.metricsHistory DefaultConfig mZeroPressure ≤ 14/25 ∧
    makeTuningDecision stTwoZero DefaultConfig mZeroPressure 0 = none :=
  extreme_pressure_suppresses stTwoZero DefaultConfig mZeroPressure 0
    (by decide) (Or.inr (by norm_num [mZeroPressure]))

/-- An environment with no containerization signal (no sentinel file,
no container words in `/proc/1/cgroup`, PID 2, no Kubernetes variable)
whose readable cgroup file nonetheless reports a positive memory
limit of 512 MiB. -/
def envPosLimit : FsEnv where
  statOk := fun _ => false
  readFile := fun p =>
    if p = "/sys/fs/cgroup/memory.max".data then some "536870912".data else none
  pid := 2
  getenv := fun _ => []

/-- Claim C9: `DetectContainerResources` never returns an error (its
error component is `none` for every file system and environment state),
and when none of the four containerization signals is present it
returns `MemoryLimit = 0`, `CPULimit = 0` without consulting the
memory- or CPU-limit resolution — even in an environment
(`envPosLimit`) whose readable cgroup limit file reports a positive
limit that `detectMemoryLimit` itself would return. -/
theorem detectContainerResources_total (e : FsEnv) :
    (DetectContainerResources e).2 = none ∧
    (isRunningInContainer e = false →
      (DetectContainerResources e).1 =
        { MemoryLimit := 0, CPULimit := 0, IsContainer := false }) ∧
    detectMemoryLimit envPosLimit = some 536870912 ∧
    isRunningInContainer envPosLimit = false ∧
    (DetectContainerResources envPosLimit).1 =
      { MemoryLimit := 0, CPULimit := 0, IsContainer := false } := by
  refine ⟨?_, ?_, by decide, by decide, by decide⟩
  · simp only [DetectContainerResources]
    split_ifs <;> rfl
  · intro hfalse
    simp only [DetectContainerResources]
    rw [if_neg (by simp [hfalse])]

theorem detectContainerResources_total_witness :
    (DetectContainerResources envPosLimit).2 = none ∧
    (DetectContainerResources envPosLimit).1 =
      { MemoryLimit := 0, CPULimit := 0, IsContainer := false } :=
  ⟨(detectContainerResources_total envPosLimit).1,
   (detectContainerResources_total envPosLimit).2.1 (by decide)⟩

end Autotune
